import Mathlib

/-
Verification of the `test_artefact` daily sales-ingestion workflow.

The development shallowly embeds both implementations of the workflow:
the CLI class `DataInjection` in `main.py` and the Airflow task set in
`dags/test_artefact/main.py`.  External effects (psycopg statements,
MinIO object fetch) are modelled by explicit state passing over a `DB`
record plus an `Env` record of oracles describing which external calls
succeed; a statement-level failure oracle `fault` says, per input row,
which of the four INSERT statements (if any) raises a storage error.
A failing statement has no effect on the database, mirroring the fact
that a failed INSERT inserts nothing.
-/

namespace TestArtefact

/-! ### Date handling: `datetime.strptime(date, "%Y%m%d")` model -/

/-- Value of a list of ASCII digit characters read as a base-10 numeral
(the way `int` reads the groups captured by `strptime`). -/
def digits_to_nat (l : List Char) : Nat :=
  l.foldl (fun n c => n * 10 + (c.toNat - 48)) 0

/-- Gregorian leap-year rule used by `datetime`. -/
def is_leap_year (y : Nat) : Bool :=
  (y % 4 = 0 && y % 100 != 0) || y % 400 = 0

/-- Number of days of month `m` in year `y` (Gregorian calendar, as
checked by `datetime.strptime`). -/
def days_in_month (y m : Nat) : Nat :=
  if m = 2 then (if is_leap_year y then 29 else 28)
  else if m = 4 ∨ m = 6 ∨ m = 9 ∨ m = 11 then 30
  else 31

/-- A calendar date as produced by a successful `strptime` call. -/
structure SimpleDate where
  year : Nat
  month : Nat
  day : Nat
deriving DecidableEq, Repr

/-- ASCII model of `datetime.strptime(s, "%Y%m%d")`: on an 8-character
ASCII-digit string the format forces a 4-2-2 split; the result is
`some` date when the components form a real calendar date with
`1 ≤ year ≤ 9999` (`datetime.MINYEAR`/`MAXYEAR`), otherwise `none` (a
raised `ValueError`). CPython also accepts Unicode decimal digits
(see `py_strptime_yyyymmdd`); the workflow theorems use this ASCII
model only under `format_date _ = some _` hypotheses, whose truth does
not depend on the wider digit set. -/
def strptime_yyyymmdd (s : String) : Option SimpleDate :=
  let cs := s.data
  if cs.length = 8 ∧ cs.all Char.isDigit then
    let y := digits_to_nat (cs.take 4)
    let m := digits_to_nat ((cs.drop 4).take 2)
    let d := digits_to_nat (cs.drop 6)
    if 1 ≤ y ∧ 1 ≤ m ∧ m ≤ 12 ∧ 1 ≤ d ∧ d ≤ days_in_month y m then
      some ⟨y, m, d⟩
    else none
  else none

/-- Model of `datetime.strptime(date, "%Y%m%d").strftime("%Y-%m-%d")`:
`none` when `strptime` raises; otherwise the same digit groups joined
with dashes (zero padding reproduces the original fixed-width digits). -/
def format_date (s : String) : Option String :=
  (strptime_yyyymmdd s).map
    (fun _ => ⟨s.data.take 4 ++ [Char.ofNat 45] ++ (s.data.drop 4).take 2
      ++ [Char.ofNat 45] ++ s.data.drop 6⟩)

/-- The ASCII fragment of `validate_date`: the same guard and
`strptime` attempt with the digit tests restricted to ASCII digits.
Used to state the ASCII part of the validator characterization; the
faithful Unicode-aware model is `validate_date` below. -/
def validate_date_ascii (date : String) : Bool :=
  if date.data.length ≠ 8 ∨ ¬ date.data.all Char.isDigit then false
  else (strptime_yyyymmdd date).isSome

/-- Unicode-aware decimal-digit value of a character, as consumed by
CPython: `str.isdigit`, the digit pattern `strptime` compiles, and
`int()` all accept Unicode decimal digits, not only ASCII. CPython
accepts every Unicode decimal digit; this table covers the two blocks
the development reasons about — the ASCII digits and the Arabic-Indic
digits U+0660–U+0669 — and is exact on them. On the remaining decimal
blocks it under-approximates; no theorem below quantifies over those
characters. -/
def py_decimal_digit (c : Char) : Option Nat :=
  if 48 ≤ c.toNat ∧ c.toNat ≤ 57 then some (c.toNat - 48)
  else if 1632 ≤ c.toNat ∧ c.toNat ≤ 1641 then some (c.toNat - 1632)
  else none

/-- Base-10 value of a list of Unicode decimal digits (`int()` applied
to a group captured by `strptime`); `none` when some character is not
a modelled decimal digit. -/
def py_digits_to_nat (l : List Char) : Option Nat :=
  l.foldl (fun acc c =>
    match acc, py_decimal_digit c with
    | some n, some d => some (n * 10 + d)
    | _, _ => none) (some 0)

/-- Unicode-aware model of `datetime.strptime(s, "%Y%m%d")` on
8-character inputs, where the format forces a 4-2-2 split: `some` when
the three groups consist of Unicode decimal digits whose values form a
real calendar date (year 1–9999). Shorter digit strings, which CPython
can also parse by shrinking the month/day groups, never reach this
call: `validate_date` length-guards first. -/
def py_strptime_yyyymmdd (s : String) : Option SimpleDate :=
  match py_digits_to_nat (s.data.take 4),
      py_digits_to_nat ((s.data.drop 4).take 2),
      py_digits_to_nat (s.data.drop 6) with
  | some y, some m, some d =>
    if s.data.length = 8 ∧ 1 ≤ y ∧ 1 ≤ m ∧ m ≤ 12 ∧ 1 ≤ d ∧
        d ≤ days_in_month y m then
      some ⟨y, m, d⟩
    else none
  | _, _, _ => none

/-- `validate_date` from `main.py`, Unicode-aware: length-8 guard,
digit guard, then a `strptime` attempt with `ValueError` mapped to
`False`. CPython's `str.isdigit` is even broader than the decimal
digits (a digit-property character such as a superscript passes the
guard but then fails inside `strptime`, leaving the result `False`
either way), so the guard is modelled by the decimal-digit table; on
ASCII strings this definition coincides with `validate_date_ascii`. -/
def validate_date (date : String) : Bool :=
  if date.data.length ≠ 8 ∨
      ¬ date.data.all (fun c => (py_decimal_digit c).isSome) then false
  else (py_strptime_yyyymmdd date).isSome

/-- The C8 counterexample input: year in Arabic-Indic digits (U+0662
U+0660 U+0662 U+0663), month and day in ASCII — eight Unicode decimal
digits reading 2023-06-15, but not eight ASCII digits. -/
def unicode_date : String := "٢٠٢٣0615"

/-! ### Data model: the CSV row and the four relational tables -/

/-- One row of the source CSV extract (all columns, as strings). -/
structure SaleRecord where
  customer_id : String
  first_name : String
  last_name : String
  email : String
  country : String
  signup_date : String
  gender : String
  age_range : String
  product_id : String
  product_name : String
  brand : String
  category : String
  cost_price : String
  color : String
  size : String
  catalog_price : String
  sale_id : String
  sale_date : String
  channel : String
  channel_campaigns : String
  item_id : String
  quantity : String
  discount_applied : String
deriving DecidableEq, Repr

/-- A row of the `client` table (columns of the first INSERT). -/
structure Client where
  customer_id : String
  first_name : String
  last_name : String
  email : String
  country : String
  signup_date : String
  gender : String
  age_range : String
deriving DecidableEq, Repr

/-- A row of the `product` table (columns of the second INSERT). -/
structure Product where
  product_id : String
  product_name : String
  brand : String
  category : String
  cost_price : String
  color : String
  size : String
  catalog_price : String
deriving DecidableEq, Repr

/-- A row of the `sale` table (columns of the third INSERT). -/
structure Sale where
  sale_id : String
  sale_date : String
  channel : String
  channel_campaigns : String
  customer_id : String
deriving DecidableEq, Repr

/-- A row of the `sale_product` table (columns of the fourth INSERT). -/
structure SaleProduct where
  item_id : String
  sale_id : String
  product_id : String
  quantity : String
  discount_applied : String
deriving DecidableEq, Repr

/-- State of the relational store: the four tables. -/
structure DB where
  client : List Client
  product : List Product
  sale : List Sale
  sale_product : List SaleProduct
deriving DecidableEq, Repr

/-- A database with all four tables empty. -/
def empty_db : DB := ⟨[], [], [], []⟩

/-- The `client` columns taken from a `SaleRecord` (VALUES of INSERT 1). -/
def client_of (r : SaleRecord) : Client :=
  ⟨r.customer_id, r.first_name, r.last_name, r.email, r.country,
    r.signup_date, r.gender, r.age_range⟩

/-- The `product` columns taken from a `SaleRecord` (VALUES of INSERT 2). -/
def product_of (r : SaleRecord) : Product :=
  ⟨r.product_id, r.product_name, r.brand, r.category, r.cost_price,
    r.color, r.size, r.catalog_price⟩

/-- The `sale` columns taken from a `SaleRecord` (VALUES of INSERT 3). -/
def sale_of (r : SaleRecord) : Sale :=
  ⟨r.sale_id, r.sale_date, r.channel, r.channel_campaigns, r.customer_id⟩

/-- The `sale_product` columns taken from a `SaleRecord` (VALUES of INSERT 4). -/
def sale_product_of (r : SaleRecord) : SaleProduct :=
  ⟨r.item_id, r.sale_id, r.product_id, r.quantity, r.discount_applied⟩

/-- `INSERT INTO client ... ON CONFLICT (customer_id) DO NOTHING`. -/
def insert_client (db : DB) (c : Client) : DB :=
  if db.client.any (fun x => x.customer_id = c.customer_id) then db
  else { db with client := db.client ++ [c] }

/-- `INSERT INTO product ... ON CONFLICT (product_id) DO NOTHING`. -/
def insert_product (db : DB) (p : Product) : DB :=
  if db.product.any (fun x => x.product_id = p.product_id) then db
  else { db with product := db.product ++ [p] }

/-- `INSERT INTO sale ... ON CONFLICT (sale_id) DO NOTHING`. -/
def insert_sale (db : DB) (s : Sale) : DB :=
  if db.sale.any (fun x => x.sale_id = s.sale_id) then db
  else { db with sale := db.sale ++ [s] }

/-- `INSERT INTO sale_product ... ON CONFLICT (item_id) DO NOTHING`. -/
def insert_sale_product (db : DB) (sp : SaleProduct) : DB :=
  if db.sale_product.any (fun x => x.item_id = sp.item_id) then db
  else { db with sale_product := db.sale_product ++ [sp] }

/-! ### `drop_duplicates` (pandas keeps the first occurrence) -/

/-- Worker for `drop_duplicates`: drops elements already in `seen`. -/
def dropDupAux {α : Type} [DecidableEq α] (seen : List α) : List α → List α
  | [] => []
  | a :: l => if a ∈ seen then dropDupAux seen l else a :: dropDupAux (a :: seen) l

/-- `DataFrame.drop_duplicates()`: keeps the first occurrence of each
row, preserving order. -/
def drop_duplicates {α : Type} [DecidableEq α] (l : List α) : List α :=
  dropDupAux [] l

/-! ### The per-row four-INSERT sequence and the batch loop -/

/-- The four tables, named as in the database schema; used to record
which INSERT statements a run issues. -/
inductive Table where
  | client
  | product
  | sale
  | sale_product
deriving DecidableEq, Repr

/-- Observable events of one workflow run: the duplicate-check query,
the MinIO object fetch, and the database accesses of the loader. -/
inductive WfEvent where
  | checkDup
  | fetchObject
  | dbConnect
  | insertStmt (t : Table)
  | dbCommit
deriving DecidableEq, Repr

/-- Errors of the pipeline: `ValueError` from `strptime`, and
`DataInjectionError` wrapping `S3Error` / `psycopg.Error`. -/
inductive RunError where
  | valueError
  | dataInjectionError
deriving DecidableEq, Repr

/-- External-world oracles for one run: whether each psycopg connection
and the final commit succeed, the content of the MinIO object (`none`
models `S3Error`), and per row index which INSERT statement (0–3), if
any, raises `psycopg.Error`. -/
structure Env where
  checkConnOk : Bool
  storeObject : Option (List SaleRecord)
  loadConnOk : Bool
  commitOk : Bool
  fault : Nat → Option (Fin 4)

/-- The body of the `for` loop for one row: the four `cur.execute`
INSERTs in source order. A statement at which the oracle faults is
issued (last entry of the trace) but inserts nothing, the remaining
statements are skipped, and the row does not count (`inserted_count`
is only incremented after the fourth statement). -/
def process_row (db : DB) (r : SaleRecord) (fault : Option (Fin 4)) :
    DB × Bool × List Table :=
  if fault = some 0 then (db, false, [Table.client])
  else
    let db1 := insert_client db (client_of r)
    if fault = some 1 then (db1, false, [Table.client, Table.product])
    else
      let db2 := insert_product db1 (product_of r)
      if fault = some 2 then (db2, false, [Table.client, Table.product, Table.sale])
      else
        let db3 := insert_sale db2 (sale_of r)
        if fault = some 3 then
          (db3, false, [Table.client, Table.product, Table.sale, Table.sale_product])
        else
          (insert_sale_product db3 (sale_product_of r), true,
            [Table.client, Table.product, Table.sale, Table.sale_product])

/-- The `for _, row in df.iterrows()` loop: processes the rows in order
(`i` is the index of the first row in the whole batch), threading the
database, summing `inserted_count` and concatenating the statement
traces. A row whose sequence faults is skipped via `continue`. -/
def load_rows (fault : Nat → Option (Fin 4)) (db : DB) (rows : List SaleRecord)
    (i : Nat) : DB × Nat × List Table :=
  match rows with
  | [] => (db, 0, [])
  | r :: rest =>
    let p := process_row db r (fault i)
    let q := load_rows fault p.1 rest (i + 1)
    (q.1, (if p.2.1 then 1 else 0) + q.2.1, p.2.2 ++ q.2.2)

/-- `DataInjection.load_data_to_postgres`: opens one connection (an
event even when it fails), runs the row loop, then commits once.  A
connection or commit failure raises `DataInjectionError` and the
transaction's writes are discarded (the error branch returns no
database, and the caller keeps its pre-call state). Returns the new
database and `inserted_count` together with the event trace. -/
def load_data_to_postgres (env : Env) (db : DB) (df : List SaleRecord) :
    Except RunError (DB × Nat) × List WfEvent :=
  if env.loadConnOk then
    let q := load_rows env.fault db df 0
    if env.commitOk then
      (Except.ok (q.1, q.2.1),
        WfEvent.dbConnect :: q.2.2.map WfEvent.insertStmt ++ [WfEvent.dbCommit])
    else
      (Except.error RunError.dataInjectionError,
        WfEvent.dbConnect :: q.2.2.map WfEvent.insertStmt ++ [WfEvent.dbCommit])
  else (Except.error RunError.dataInjectionError, [WfEvent.dbConnect])

/-- `DataInjection.check_date_exists`: `strptime` the date (a raised
`ValueError` propagates), then one `SELECT EXISTS(SELECT 1 FROM sale
WHERE sale_date = ...)`; `psycopg.Error` becomes `DataInjectionError`. -/
def check_date_exists (date : String) (db : DB) (env : Env) : Except RunError Bool :=
  match format_date date with
  | none => Except.error RunError.valueError
  | some f =>
    if env.checkConnOk then Except.ok (db.sale.any (fun s => s.sale_date = f))
    else Except.error RunError.dataInjectionError

/-- `DataInjection.extract_data_from_minio`: `strptime` the date (a
raised `ValueError` propagates), fetch the object (`S3Error` becomes
`DataInjectionError`), then `df[df["sale_date"] == formatted_date]
.drop_duplicates()`. -/
def extract_data_from_minio (date : String) (env : Env) :
    Except RunError (List SaleRecord) :=
  match format_date date with
  | none => Except.error RunError.valueError
  | some f =>
    match env.storeObject with
    | none => Except.error RunError.dataInjectionError
    | some rows => Except.ok (drop_duplicates (rows.filter (fun r => r.sale_date = f)))

/-- Outcome of `DataInjection.start_workflow`: the returned boolean, the
final database, the loader's `inserted_count` (0 when the loader never
ran or failed), and the run's event trace. -/
structure RunResult where
  ok : Bool
  db : DB
  rows_inserted : Nat
  events : List WfEvent
deriving DecidableEq, Repr

/-- `DataInjection.start_workflow`: check the date, short-circuit when
it exists, extract, short-circuit when empty, load; every
`DataInjectionError` (and the `ValueError` of a bad date, via the
blanket `except Exception`) is caught at this boundary and mapped to
`False`. -/
def start_workflow (env : Env) (db : DB) (date : String) : RunResult :=
  match check_date_exists date db env with
  | Except.error _ => ⟨false, db, 0, [WfEvent.checkDup]⟩
  | Except.ok true => ⟨false, db, 0, [WfEvent.checkDup]⟩
  | Except.ok false =>
    match extract_data_from_minio date env with
    | Except.error _ => ⟨false, db, 0, [WfEvent.checkDup, WfEvent.fetchObject]⟩
    | Except.ok df =>
      if df.isEmpty then ⟨false, db, 0, [WfEvent.checkDup, WfEvent.fetchObject]⟩
      else
        match load_data_to_postgres env db df with
        | (Except.error _, levs) =>
          ⟨false, db, 0, WfEvent.checkDup :: WfEvent.fetchObject :: levs⟩
        | (Except.ok q, levs) =>
          ⟨true, q.1, q.2, WfEvent.checkDup :: WfEvent.fetchObject :: levs⟩

/-! ### The Airflow variant of the loader (`dags/test_artefact/main.py`) -/

/-- The dict returned by the Airflow `load_data_to_postgres` task. -/
structure DagLoadResult where
  status : String
  rows_inserted : Nat
deriving DecidableEq, Repr

/-- Airflow task `load_data_to_postgres`: `data_json is None` (no rows
survived extraction) returns `status: skipped` with `rows_inserted = 0`
before any hook/connection is touched; otherwise it connects, runs the
same row loop, and commits. -/
def dag_load_data_to_postgres (env : Env) (db : DB)
    (data_json : Option (List SaleRecord)) :
    Except RunError (DagLoadResult × DB) × List WfEvent :=
  match data_json with
  | none => (Except.ok (⟨"skipped", 0⟩, db), [])
  | some df =>
    if env.loadConnOk then
      let q := load_rows env.fault db df 0
      if env.commitOk then
        (Except.ok (⟨"success", q.2.1⟩, q.1),
          WfEvent.dbConnect :: q.2.2.map WfEvent.insertStmt ++ [WfEvent.dbCommit])
      else
        (Except.error RunError.dataInjectionError,
          WfEvent.dbConnect :: q.2.2.map WfEvent.insertStmt ++ [WfEvent.dbCommit])
    else (Except.error RunError.dataInjectionError, [WfEvent.dbConnect])

/-! ### Spec-side definitions (for refinement-style claims) -/

/-- Modelled from the spec, §4.5: the terminal state of the state
machine validate → check → extract → load → report, written from the
spec's words for comparison with `start_workflow`'s boolean. A bad date
surfacing at run time (`ValueError` inside check) is `rejected`. -/
inductive Terminal where
  | rejected
  | skippedExisting
  | skippedNoData
  | completed (rows_inserted : Nat)
  | failed
deriving DecidableEq, Repr

/-- Modelled from the spec, §4.5: classifies a run of the workflow into
its terminal state, following the spec's state machine on the same
oracles as `start_workflow`. -/
def workflow_terminal (env : Env) (db : DB) (date : String) : Terminal :=
  match check_date_exists date db env with
  | Except.error RunError.valueError => Terminal.rejected
  | Except.error RunError.dataInjectionError => Terminal.failed
  | Except.ok true => Terminal.skippedExisting
  | Except.ok false =>
    match extract_data_from_minio date env with
    | Except.error _ => Terminal.failed
    | Except.ok df =>
      if df.isEmpty then Terminal.skippedNoData
      else
        match load_data_to_postgres env db df with
        | (Except.error _, _) => Terminal.failed
        | (Except.ok q, _) => Terminal.completed q.2

/-- Zero-padded base-10 rendering of `n` on `width` digit characters
(low digit last); spec-side description of a fixed-width digit group. -/
def pad_digits : Nat → Nat → List Char
  | 0, _ => []
  | k + 1, n => pad_digits k (n / 10) ++ [Char.ofNat (48 + n % 10)]

/-- Spec-side predicate, §4.1: the string consists of exactly 8 ASCII
digits that are the `YYYYMMDD` rendering of a real calendar date (year
1–9999, valid month, day within the month's length). -/
def SpecRealCalendarDate (s : String) : Prop :=
  ∃ y m d : Nat, 1 ≤ y ∧ y ≤ 9999 ∧ 1 ≤ m ∧ m ≤ 12 ∧ 1 ≤ d ∧
    d ≤ days_in_month y m ∧
    s.data = pad_digits 4 y ++ pad_digits 2 m ++ pad_digits 2 d

/-- Number of INSERT statements issued for one row under a given fault:
all four when none faults, otherwise the statements up to and including
the faulting one. -/
def issued_count : Option (Fin 4) → Nat
  | none => 4
  | some j => j.val + 1

/-! ### Concrete fixtures used by witnesses and counterexamples -/

/-- A CSV row with every column blank. -/
def blank_row : SaleRecord :=
  ⟨"", "", "", "", "", "", "", "", "", "", "", "", "", "", "", "", "", "", "", "", "", "", ""⟩

/-- A 2023-06-15 line item whose `sale_id` is `S1`. -/
def cex_row : SaleRecord :=
  { blank_row with
    customer_id := "C1"
    product_id := "P1"
    sale_id := "S1"
    sale_date := "2023-06-15"
    item_id := "I1" }

/-- A second 2023-06-15 line item with all-fresh keys. -/
def cex_row2 : SaleRecord :=
  { blank_row with
    customer_id := "C2"
    product_id := "P2"
    sale_id := "S2"
    sale_date := "2023-06-15"
    item_id := "I2" }

/-- A 2023-07-01 line item (does not match the target date). -/
def cex_row_other_date : SaleRecord :=
  { blank_row with
    customer_id := "C3"
    product_id := "P3"
    sale_id := "S3"
    sale_date := "2023-07-01"
    item_id := "I3" }

/-- A pre-existing `sale` row that reuses `sale_id = S1` under a
different date. -/
def cex_old_sale : Sale := ⟨"S1", "2022-01-01", "", "", "C9"⟩

/-- A database whose `sale` table already holds `cex_old_sale`. -/
def cex_db : DB := ⟨[], [], [cex_old_sale], []⟩

/-- A `sale` row dated 2023-06-15 (makes the duplicate check fire). -/
def existing_sale : Sale := ⟨"S9", "2023-06-15", "", "", "C9"⟩

/-- A database that already holds a sale dated 2023-06-15. -/
def db_existing : DB := ⟨[], [], [existing_sale], []⟩

/-- An environment where every external call succeeds and no INSERT
faults; `obj` is the MinIO object content. -/
def env_of (obj : Option (List SaleRecord)) : Env :=
  ⟨true, obj, true, true, fun _ => none⟩

/-- An environment whose duplicate-check connection fails. -/
def env_check_fail : Env :=
  ⟨false, some [cex_row], true, true, fun _ => none⟩

/-- The MinIO object used by the C9 witness: two copies of the same
2023-06-15 row, one further 2023-06-15 row, and one 2023-07-01 row. -/
def mixed_rows : List SaleRecord := [cex_row, cex_row, cex_row2, cex_row_other_date]

/-- An environment where only the first batch row faults (at its first
INSERT statement). -/
def env_first_row_faults : Env :=
  ⟨true, some [cex_row, cex_row2], true, true,
    fun j => if j = 0 then some 0 else none⟩

/-! ### Helper lemmas -/

/-- A row counts towards `inserted_count` exactly when none of its four
statements faults. -/
theorem process_row_ok (db : DB) (r : SaleRecord) (f : Option (Fin 4)) :
    (process_row db r f).2.1 = f.isNone := by
  rcases f with _ | j
  · rfl
  · fin_cases j <;> rfl

/-- The database produced by one row is the fold of the INSERT effects
strictly before the faulting statement. -/
theorem process_row_db (db : DB) (r : SaleRecord) (f : Option (Fin 4)) :
    (process_row db r f).1 =
      (match f with
        | none => insert_sale_product
            (insert_sale (insert_product (insert_client db (client_of r))
              (product_of r)) (sale_of r)) (sale_product_of r)
        | some ⟨0, _⟩ => db
        | some ⟨1, _⟩ => insert_client db (client_of r)
        | some ⟨2, _⟩ => insert_product (insert_client db (client_of r)) (product_of r)
        | some ⟨3, _⟩ => insert_sale (insert_product (insert_client db (client_of r))
            (product_of r)) (sale_of r)) := by
  rcases f with _ | j
  · rfl
  · fin_cases j <;> rfl

/-- The statement trace of one row. -/
theorem process_row_trace (db : DB) (r : SaleRecord) (f : Option (Fin 4)) :
    (process_row db r f).2.2 =
      [Table.client, Table.product, Table.sale, Table.sale_product].take
        (issued_count f) := by
  rcases f with _ | j
  · rfl
  · fin_cases j <;> rfl

/-- Membership in the dedup worker: kept iff present in the input and
not already seen. -/
theorem mem_dropDupAux {α : Type} [DecidableEq α] (x : α) :
    ∀ (l seen : List α), x ∈ dropDupAux seen l ↔ x ∈ l ∧ x ∉ seen := by
  intro l
  induction l with
  | nil => intro seen; simp [dropDupAux]
  | cons a l ih =>
    intro seen
    by_cases ha : a ∈ seen
    · rw [dropDupAux, if_pos ha, ih]
      constructor
      · rintro ⟨hx, hs⟩; exact ⟨List.mem_cons_of_mem _ hx, hs⟩
      · rintro ⟨hx, hs⟩
        rcases List.mem_cons.mp hx with rfl | hx
        · exact absurd ha hs
        · exact ⟨hx, hs⟩
    · rw [dropDupAux, if_neg ha]
      constructor
      · intro hx
        rcases List.mem_cons.mp hx with rfl | hx
        · exact ⟨List.mem_cons_self _ _, ha⟩
        · obtain ⟨h1, h2⟩ := (ih _).mp hx
          refine ⟨List.mem_cons_of_mem _ h1, fun hs => h2 (List.mem_cons_of_mem _ hs)⟩
      · rintro ⟨hx, hs⟩
        rcases List.mem_cons.mp hx with rfl | hx
        · exact List.mem_cons_self _ _
        · by_cases hxa : x = a
          · subst hxa; exact List.mem_cons_self _ _
          · refine List.mem_cons_of_mem _ ((ih _).mpr ⟨hx, ?_⟩)
            intro hmem
            rcases List.mem_cons.mp hmem with h | h
            · exact hxa h
            · exact hs h

/-- The dedup worker returns a duplicate-free list. -/
theorem nodup_dropDupAux {α : Type} [DecidableEq α] :
    ∀ (l seen : List α), (dropDupAux seen l).Nodup := by
  intro l
  induction l with
  | nil => intro seen; simp [dropDupAux]
  | cons a l ih =>
    intro seen
    by_cases ha : a ∈ seen
    · rw [dropDupAux, if_pos ha]; exact ih seen
    · rw [dropDupAux, if_neg ha]
      refine List.nodup_cons.mpr ⟨?_, ih _⟩
      intro hmem
      exact ((mem_dropDupAux a l (a :: seen)).mp hmem).2 (List.mem_cons_self _ _)

/-- Membership in `drop_duplicates`. -/
theorem mem_drop_duplicates {α : Type} [DecidableEq α] (x : α) (l : List α) :
    x ∈ drop_duplicates l ↔ x ∈ l := by
  rw [drop_duplicates, mem_dropDupAux]
  simp

/-- `drop_duplicates` returns a duplicate-free list. -/
theorem nodup_drop_duplicates {α : Type} [DecidableEq α] (l : List α) :
    (drop_duplicates l).Nodup :=
  nodup_dropDupAux l []

/-- `inserted_count` of the row loop counts the rows (by batch index)
whose fault oracle is `none`. -/
theorem load_rows_count (fault : Nat → Option (Fin 4)) :
    ∀ (rows : List SaleRecord) (i : Nat) (db : DB),
      (load_rows fault db rows i).2.1 =
        (List.range rows.length).countP (fun j => (fault (i + j)).isNone) := by
  intro rows
  induction rows with
  | nil => intro i db; simp [load_rows]
  | cons r rest ih =>
    intro i db
    rw [load_rows]
    simp only [process_row_ok, List.length_cons, List.range_succ_eq_map,
      List.countP_cons, List.countP_map]
    rw [ih (i + 1)]
    have hc : (List.range rest.length).countP ((fun j => (fault (i + j)).isNone) ∘ Nat.succ)
        = (List.range rest.length).countP (fun j => (fault (i + 1 + j)).isNone) := by
      refine List.countP_congr ?_
      intro x _
      have : i + Nat.succ x = i + 1 + x := by omega
      simp [Function.comp, this]
    rw [hc]
    rcases h : fault i with _ | j <;> simp [h, Nat.add_comm]

/-- Counting the indices different from a fixed `k < N`. -/
theorem countP_range_ne (N k : Nat) (h : k < N) :
    (List.range N).countP (fun j => decide ¬ (j = k)) = N - 1 := by
  induction N with
  | zero => omega
  | succ n ih =>
    rw [List.range_succ, List.countP_append]
    rcases Nat.lt_or_ge k n with hk | hk
    · rw [ih hk]
      have hne : ¬ (n = k) := by omega
      simp [hne]
      omega
    · have hkn : k = n := by omega
      subst hkn
      have hall : (List.range k).countP (fun j => decide ¬ (j = k)) = (List.range k).length := by
        rw [List.countP_eq_length]
        intro a ha
        have h2 := List.mem_range.mp ha
        simp only [decide_eq_true_eq]
        omega
      rw [List.length_range] at hall
      rw [hall, List.countP_cons]
      simp

/-! ### Claim theorems -/

/-- C2: for a batch of N rows in which exactly one row k faults during
its four-INSERT sequence, the faulting row is skipped (its statements
are not retried), the loop continues, the transaction commits (the
loader returns `ok`), and `inserted_count` is N-1. -/
theorem c2_per_row_partial_failure (env : Env) (db : DB)
    (rows : List SaleRecord) (k : Nat)
    (hconn : env.loadConnOk = true) (hcommit : env.commitOk = true)
    (hk : k < rows.length)
    (hfault : ∀ j, j < rows.length → ((env.fault j).isSome = true ↔ j = k)) :
    ∃ db2 evs, load_data_to_postgres env db rows =
      (Except.ok (db2, rows.length - 1), evs) := by
  have hcount : (load_rows env.fault db rows 0).2.1 = rows.length - 1 := by
    rw [load_rows_count]
    have hcong : (List.range rows.length).countP (fun j => (env.fault (0 + j)).isNone)
        = (List.range rows.length).countP (fun j => decide ¬ (j = k)) := by
      refine List.countP_congr ?_
      intro x hx
      have hxN := List.mem_range.mp hx
      have h := hfault x hxN
      rcases hf : env.fault x with _ | v
      · have h2 : ¬ x = k := by simpa [hf] using h
        simp [hf, h2]
      · have h2 : x = k := by simpa [hf] using h
        subst h2
        simp [hf]
    rw [hcong, countP_range_ne _ _ hk]
  refine ⟨(load_rows env.fault db rows 0).1,
    WfEvent.dbConnect :: (load_rows env.fault db rows 0).2.2.map WfEvent.insertStmt
      ++ [WfEvent.dbCommit], ?_⟩
  simp only [load_data_to_postgres, hconn, hcommit, if_true, hcount]

/-- C2 witness: a two-row batch in which only the first row faults
commits with `inserted_count = 1`. -/
theorem c2_witness :
    ∃ db2 evs, load_data_to_postgres env_first_row_faults empty_db [cex_row, cex_row2] =
      (Except.ok (db2, 1), evs) :=
  c2_per_row_partial_failure env_first_row_faults empty_db [cex_row, cex_row2] 0
    rfl rfl (by decide) (by decide)

/-- C3 counterexample: a row whose sequence faults at the third INSERT
(`sale`) still creates its `client` and `product` entities — the claim
that a partly-failed row creates none of its four entities is false. -/
theorem c3_counterexample :
    (process_row empty_db cex_row (some 2)).2.1 = false ∧
    (process_row empty_db cex_row (some 2)).1.client = [client_of cex_row] ∧
    (process_row empty_db cex_row (some 2)).1.product = [product_of cex_row] ∧
    (process_row empty_db cex_row (some 2)).1.sale = [] ∧
    (process_row empty_db cex_row (some 2)).1.sale_product = [] := by
  exact ⟨rfl, by decide, by decide, rfl, rfl⟩

/-- C3 amended: there is no per-row rollback; a row whose sequence
faults at statement i keeps exactly the entities inserted by the
statements before i (a strict prefix of the four), and only a row with
no fault counts towards `inserted_count`. -/
theorem c3_amended_prefix_creation (db : DB) (r : SaleRecord) (f : Option (Fin 4)) :
    (process_row db r f).2.1 = f.isNone ∧
    (process_row db r f).1 =
      (match f with
        | none => insert_sale_product
            (insert_sale (insert_product (insert_client db (client_of r))
              (product_of r)) (sale_of r)) (sale_product_of r)
        | some ⟨0, _⟩ => db
        | some ⟨1, _⟩ => insert_client db (client_of r)
        | some ⟨2, _⟩ => insert_product (insert_client db (client_of r)) (product_of r)
        | some ⟨3, _⟩ => insert_sale (insert_product (insert_client db (client_of r))
            (product_of r)) (sale_of r)) :=
  ⟨process_row_ok db r f, process_row_db db r f⟩

/-- C4 counterexample: the CLI loader given an empty input sequence
still opens a connection and commits (database access occurs), and it
returns a plain `ok` with no `skipped` status. -/
theorem c4_counterexample :
    load_data_to_postgres (env_of none) empty_db [] =
      (Except.ok (empty_db, 0), [WfEvent.dbConnect, WfEvent.dbCommit]) ∧
    [WfEvent.dbConnect, WfEvent.dbCommit] ≠ ([] : List WfEvent) :=
  ⟨rfl, by decide⟩

/-- C4 amended: the empty-input short-circuit exists only in the DAG
loader — given no data it returns status `skipped` with
`rows_inserted = 0` and an empty event trace (no database access) —
while the CLI loader on an empty sequence opens a connection and
commits an empty transaction, inserting zero rows. -/
theorem c4_amended (env : Env) (db : DB) :
    dag_load_data_to_postgres env db none = (Except.ok (⟨"skipped", 0⟩, db), []) ∧
    (env.loadConnOk = true → env.commitOk = true →
      load_data_to_postgres env db [] =
        (Except.ok (db, 0), [WfEvent.dbConnect, WfEvent.dbCommit])) := by
  refine ⟨rfl, fun h1 h2 => ?_⟩
  simp [load_data_to_postgres, load_rows, h1, h2]

/-- C4 witness: both loader behaviours at a concrete environment. -/
theorem c4_witness :
    dag_load_data_to_postgres (env_of none) empty_db none =
      (Except.ok (⟨"skipped", 0⟩, empty_db), []) ∧
    load_data_to_postgres (env_of none) empty_db [] =
      (Except.ok (empty_db, 0), [WfEvent.dbConnect, WfEvent.dbCommit]) :=
  ⟨(c4_amended (env_of none) empty_db).1, (c4_amended (env_of none) empty_db).2 rfl rfl⟩

/-- C5: the INSERT statements of every row are issued in the order
client, product, sale, sale_product — the trace is always a prefix of
that canonical order, and the full order exactly when no statement
faults. -/
theorem c5_referential_insert_order (db : DB) (r : SaleRecord) (f : Option (Fin 4)) :
    (process_row db r f).2.2 =
      [Table.client, Table.product, Table.sale, Table.sale_product].take
        (issued_count f) ∧
    (f = none → (process_row db r f).2.2 =
      [Table.client, Table.product, Table.sale, Table.sale_product]) := by
  refine ⟨process_row_trace db r f, fun hf => ?_⟩
  subst hf
  exact process_row_trace db r none

/-- C5 witness: the fault-free trace at a concrete row. -/
theorem c5_witness :
    (process_row empty_db cex_row none).2.2 =
      [Table.client, Table.product, Table.sale, Table.sale_product] :=
  (c5_referential_insert_order empty_db cex_row none).2 rfl

/-- A run whose duplicate check answers `true` stops at once. -/
theorem start_workflow_of_check_ok_true (env : Env) (db2 : DB) (date : String)
    (hc : check_date_exists date db2 env = Except.ok true) :
    start_workflow env db2 date = ⟨false, db2, 0, [WfEvent.checkDup]⟩ := by
  simp [start_workflow, hc]

/-- A run whose duplicate check raises stops at once with `False`. -/
theorem start_workflow_of_check_error (env : Env) (db2 : DB) (date : String)
    (e : RunError) (hc : check_date_exists date db2 env = Except.error e) :
    start_workflow env db2 date = ⟨false, db2, 0, [WfEvent.checkDup]⟩ := by
  simp [start_workflow, hc]

/-- C1 counterexample: date 20230615, object containing one 2023-06-15
row whose `sale_id` already exists in `sale` under date 2022-01-01.
The first run completes (the sale INSERT conflict-skips, so no Sale row
with the target date appears), and the second run with the same date
and the same object does not short-circuit: it reports
`rows_inserted = 1`, not 0. -/
theorem c1_counterexample :
    (start_workflow (env_of (some [cex_row])) cex_db "20230615").ok = true ∧
    (start_workflow (env_of (some [cex_row]))
      (start_workflow (env_of (some [cex_row])) cex_db "20230615").db
      "20230615").rows_inserted = 1 ∧
    ¬ (start_workflow (env_of (some [cex_row]))
      (start_workflow (env_of (some [cex_row])) cex_db "20230615").db
      "20230615").rows_inserted = 0 :=
  ⟨by decide, by decide, by decide⟩

/-- C1 amended: the second run yields `rows_inserted = 0` and never
touches the object store provided the first run left at least one
`sale` row carrying the target date (as happens whenever a row with a
fresh `sale_id` completed); without such a row the duplicate check
cannot fire and the second run may insert again. -/
theorem c1_amended_idempotence (env : Env) (db : DB) (date f : String)
    (hf : format_date date = some f)
    (hsale : ((start_workflow env db date).db).sale.any
      (fun s => s.sale_date = f) = true) :
    (start_workflow env ((start_workflow env db date).db) date).rows_inserted = 0 ∧
    WfEvent.fetchObject ∉
      (start_workflow env ((start_workflow env db date).db) date).events := by
  rcases hconn : env.checkConnOk with _ | _
  · have hc : check_date_exists date ((start_workflow env db date).db) env =
        Except.error RunError.dataInjectionError := by
      simp [check_date_exists, hf, hconn]
    rw [start_workflow_of_check_error env _ date _ hc]
    exact ⟨rfl, by simp⟩
  · have hc : check_date_exists date ((start_workflow env db date).db) env =
        Except.ok true := by
      simp [check_date_exists, hf, hconn, hsale]
    rw [start_workflow_of_check_ok_true env _ date hc]
    exact ⟨rfl, by simp⟩

/-- C1 witness: with an empty initial database and a fresh-keyed row
the first run does create the dated `sale` row, and the second run
short-circuits with zero insertions and no object-store fetch. -/
theorem c1_witness :
    (start_workflow (env_of (some [cex_row2]))
      ((start_workflow (env_of (some [cex_row2])) empty_db "20230615").db)
      "20230615").rows_inserted = 0 ∧
    WfEvent.fetchObject ∉ (start_workflow (env_of (some [cex_row2]))
      ((start_workflow (env_of (some [cex_row2])) empty_db "20230615").db)
      "20230615").events :=
  c1_amended_idempotence (env_of (some [cex_row2])) empty_db "20230615" "2023-06-15"
    (by decide) (by decide)

/-- C6: every run performs the duplicate check first (the event trace
begins with it), and when the check reports the date as existing the
run ends at once — the trace is exactly the check, so the object store
is never called, nothing is extracted and nothing is loaded. -/
theorem c6_check_before_fetch (env : Env) (db : DB) (date : String) :
    ((start_workflow env db date).events).head? = some WfEvent.checkDup ∧
    (check_date_exists date db env = Except.ok true →
      (start_workflow env db date).events = [WfEvent.checkDup] ∧
      (start_workflow env db date).db = db ∧
      (start_workflow env db date).ok = false) := by
  rcases hc : check_date_exists date db env with e | b
  · simp [start_workflow, hc]
  · rcases b with _ | _
    · constructor
      · rcases he : extract_data_from_minio date env with e2 | df
        · simp [start_workflow, hc, he]
        · rcases hemp : df.isEmpty with _ | _
          · rcases hld : load_data_to_postgres env db df with ⟨res, levs⟩
            rcases res with e3 | q
            · simp [start_workflow, hc, he, hemp, hld]
            · simp [start_workflow, hc, he, hemp, hld]
          · simp [start_workflow, hc, he, hemp]
      · intro hct
        exact absurd hct (by simp)
    · simp [start_workflow, hc]

/-- C6 witness: a database already holding a 2023-06-15 sale makes the
run stop after the check, leaving the store untouched. -/
theorem c6_witness :
    (start_workflow (env_of (some [cex_row])) db_existing "20230615").events =
      [WfEvent.checkDup] ∧
    (start_workflow (env_of (some [cex_row])) db_existing "20230615").db =
      db_existing ∧
    (start_workflow (env_of (some [cex_row])) db_existing "20230615").ok = false :=
  (c6_check_before_fetch (env_of (some [cex_row])) db_existing "20230615").2 rfl

/-- C7: every error of the duplicate check, the extraction or the load
is absorbed at the orchestrator boundary: the run still returns a
`RunResult` whose boolean is `False` and whose database is the caller's
unchanged state — no exception escapes `start_workflow`. (Totality of
the model is by construction: `start_workflow` returns a `RunResult`
for every input.) -/
theorem c7_orchestrator_error_boundary (env : Env) (db : DB) (date : String) :
    ((check_date_exists date db env).isOk = false →
      start_workflow env db date = ⟨false, db, 0, [WfEvent.checkDup]⟩) ∧
    (check_date_exists date db env = Except.ok false →
      (extract_data_from_minio date env).isOk = false →
      start_workflow env db date =
        ⟨false, db, 0, [WfEvent.checkDup, WfEvent.fetchObject]⟩) ∧
    (∀ df, check_date_exists date db env = Except.ok false →
      extract_data_from_minio date env = Except.ok df → df.isEmpty = false →
      (load_data_to_postgres env db df).1.isOk = false →
      (start_workflow env db date).ok = false ∧
      (start_workflow env db date).db = db ∧
      (start_workflow env db date).rows_inserted = 0) := by
  refine ⟨?_, ?_, ?_⟩
  · intro h
    rcases hc : check_date_exists date db env with e | b
    · simp [start_workflow, hc]
    · rw [hc] at h
      simp [Except.isOk, Except.toBool] at h
  · intro hc he
    rcases hex : extract_data_from_minio date env with e2 | df
    · simp [start_workflow, hc, hex]
    · rw [hex] at he
      simp [Except.isOk, Except.toBool] at he
  · intro df hc hex hemp hl
    rcases hld : load_data_to_postgres env db df with ⟨res, levs⟩
    rcases res with e3 | q
    · simp [start_workflow, hc, hex, hemp, hld]
    · rw [hld] at hl
      simp [Except.isOk, Except.toBool] at hl

/-- C7 witness: a failing duplicate-check connection ends the run with
the boolean `False` outcome and no propagated error. -/
theorem c7_witness :
    start_workflow env_check_fail cex_db "20230615" =
      ⟨false, cex_db, 0, [WfEvent.checkDup]⟩ :=
  (c7_orchestrator_error_boundary env_check_fail cex_db "20230615").1 (by decide)

/-- C10: the boolean returned by `start_workflow` is `True` exactly
when the run reaches the `completed` terminal state; all of
skipped-existing, skipped-no-data, rejected-at-runtime and failed
collapse to the same `False`, so the caller cannot tell a benign skip
from a failure. -/
theorem c10_boolean_conflation (env : Env) (db : DB) (date : String) :
    ((start_workflow env db date).ok = true ↔
      ∃ n, workflow_terminal env db date = Terminal.completed n) ∧
    (workflow_terminal env db date = Terminal.rejected ∨
      workflow_terminal env db date = Terminal.skippedExisting ∨
      workflow_terminal env db date = Terminal.skippedNoData ∨
      workflow_terminal env db date = Terminal.failed →
      (start_workflow env db date).ok = false) := by
  rcases hc : check_date_exists date db env with e | b
  · rcases e with _ | _ <;> constructor <;>
      simp [start_workflow, workflow_terminal, hc]
  · rcases b with _ | _
    · rcases hex : extract_data_from_minio date env with e2 | df
      · constructor <;> simp [start_workflow, workflow_terminal, hc, hex]
      · rcases hemp : df.isEmpty with _ | _
        · rcases hld : load_data_to_postgres env db df with ⟨res, levs⟩
          rcases res with e3 | q
          · constructor <;> simp [start_workflow, workflow_terminal, hc, hex, hemp, hld]
          · constructor <;> simp [start_workflow, workflow_terminal, hc, hex, hemp, hld]
        · constructor <;> simp [start_workflow, workflow_terminal, hc, hex, hemp]
    · constructor <;> simp [start_workflow, workflow_terminal, hc]

/-- C10 witness: a skipped-existing run returns `False`. -/
theorem c10_witness :
    (start_workflow (env_of (some [cex_row])) db_existing "20230615").ok = false :=
  (c10_boolean_conflation (env_of (some [cex_row])) db_existing "20230615").2
    (Or.inr (Or.inl (by decide)))

/-! ### Digit-string lemmas for the `validate_date` claim -/

/-- A digit character has code point between 48 and 57. -/
theorem isDigit_bounds {c : Char} (h : c.isDigit = true) :
    48 ≤ c.toNat ∧ c.toNat ≤ 57 := by
  simp [Char.isDigit] at h
  exact ⟨h.1, h.2⟩

/-- Appending one digit multiplies the value by ten. -/
theorem digits_to_nat_append (l : List Char) (c : Char) :
    digits_to_nat (l ++ [c]) = digits_to_nat l * 10 + (c.toNat - 48) := by
  rw [digits_to_nat, digits_to_nat, List.foldl_append]
  rfl

/-- `pad_digits k n` has exactly `k` characters. -/
theorem pad_digits_length (k : Nat) : ∀ n, (pad_digits k n).length = k := by
  induction k with
  | zero => intro n; rfl
  | succ k ih => intro n; simp [pad_digits, ih]

/-- The character of a single rendered digit. -/
theorem toNat_ofNat_digit (n : Nat) : (Char.ofNat (48 + n % 10)).toNat = 48 + n % 10 := by
  have h : n % 10 < 10 := Nat.mod_lt _ (by norm_num)
  set r := n % 10 with hr
  interval_cases r <;> decide

/-- A rendered digit character is a digit. -/
theorem isDigit_ofNat_digit (n : Nat) : (Char.ofNat (48 + n % 10)).isDigit = true := by
  have h : n % 10 < 10 := Nat.mod_lt _ (by norm_num)
  set r := n % 10 with hr
  interval_cases r <;> decide

/-- Every character of `pad_digits` is a digit. -/
theorem pad_digits_all_digit (k : Nat) :
    ∀ n, ∀ c ∈ pad_digits k n, c.isDigit = true := by
  induction k with
  | zero => intro n c hc; simp [pad_digits] at hc
  | succ k ih =>
    intro n c hc
    rw [pad_digits] at hc
    rcases List.mem_append.mp hc with h | h
    · exact ih _ c h
    · rw [List.mem_singleton.mp h]
      exact isDigit_ofNat_digit n

/-- Reading back a rendering gives the value modulo `10 ^ k`. -/
theorem digits_to_nat_pad (k : Nat) : ∀ n, digits_to_nat (pad_digits k n) = n % 10 ^ k := by
  induction k with
  | zero => intro n; simp [pad_digits, digits_to_nat, Nat.mod_one]
  | succ k ih =>
    intro n
    rw [pad_digits, digits_to_nat_append, ih, toNat_ofNat_digit]
    have h1 : n % (10 * 10 ^ k) = n % 10 + 10 * (n / 10 % 10 ^ k) := Nat.mod_mul
    rw [pow_succ, Nat.mul_comm (10 ^ k) 10, h1]
    omega

/-- The value of a `k`-character digit string is below `10 ^ k`. -/
theorem digits_to_nat_lt (l : List Char) (h : ∀ c ∈ l, c.isDigit = true) :
    digits_to_nat l < 10 ^ l.length := by
  induction l using List.reverseRecOn with
  | nil => simp [digits_to_nat]
  | append_singleton l c ih =>
    have hc := isDigit_bounds (h c (List.mem_append_right _ (List.mem_singleton_self c)))
    have hl := ih (fun x hx => h x (List.mem_append_left _ hx))
    rw [digits_to_nat_append, List.length_append, List.length_singleton, pow_succ]
    omega

/-- Rendering the value of a digit string at its own width restores the
string. -/
theorem pad_digits_of_digits (l : List Char) (h : ∀ c ∈ l, c.isDigit = true) :
    pad_digits l.length (digits_to_nat l) = l := by
  induction l using List.reverseRecOn with
  | nil => rfl
  | append_singleton l c ih =>
    have hc := isDigit_bounds (h c (List.mem_append_right _ (List.mem_singleton_self c)))
    rw [digits_to_nat_append, List.length_append, List.length_singleton, pad_digits]
    have hdiv : (digits_to_nat l * 10 + (c.toNat - 48)) / 10 = digits_to_nat l := by omega
    have hmod : (digits_to_nat l * 10 + (c.toNat - 48)) % 10 = c.toNat - 48 := by omega
    rw [hdiv, hmod, ih (fun x hx => h x (List.mem_append_left _ hx))]
    have h48 : 48 + (c.toNat - 48) = c.toNat := by omega
    rw [h48, Char.ofNat_toNat]

/-- Every month has at most 31 days. -/
theorem days_in_month_le (y m : Nat) : days_in_month y m ≤ 31 := by
  rw [days_in_month]
  split
  · split <;> norm_num
  · split <;> norm_num

/-- The guard structure of a successful `strptime` on an 8-digit
string. -/
theorem strptime_isSome_iff (s : String)
    (hlen : s.data.length = 8) (hall : s.data.all Char.isDigit = true) :
    (strptime_yyyymmdd s).isSome = true ↔
      (1 ≤ digits_to_nat (s.data.take 4) ∧
        1 ≤ digits_to_nat ((s.data.drop 4).take 2) ∧
        digits_to_nat ((s.data.drop 4).take 2) ≤ 12 ∧
        1 ≤ digits_to_nat (s.data.drop 6) ∧
        digits_to_nat (s.data.drop 6) ≤
          days_in_month (digits_to_nat (s.data.take 4))
            (digits_to_nat ((s.data.drop 4).take 2))) := by
  simp only [strptime_yyyymmdd]
  rw [if_pos ⟨hlen, hall⟩]
  split
  · simp [*]
  · simp [*]

/-- The ASCII validator fragment accepts exactly the eight-ASCII-digit
renderings of real calendar dates (year 1–9999, month 1–12, day within
the Gregorian month length). -/
theorem validate_date_ascii_iff (s : String) :
    validate_date_ascii s = true ↔ SpecRealCalendarDate s := by
  constructor
  · intro h
    rw [validate_date_ascii] at h
    by_cases hg : s.data.length ≠ 8 ∨ ¬ s.data.all Char.isDigit = true
    · rw [if_pos hg] at h
      exact absurd h (by simp)
    · rw [if_neg hg] at h
      push_neg at hg
      obtain ⟨hlen, hall⟩ := hg
      have hall2 := List.all_eq_true.mp hall
      obtain ⟨h1, h2, h3, h4, h5⟩ := (strptime_isSome_iff s hlen hall).mp h
      have hlen4 : (s.data.take 4).length = 4 := by
        rw [List.length_take, hlen]
        decide
      have hlen2m : ((s.data.drop 4).take 2).length = 2 := by
        rw [List.length_take, List.length_drop, hlen]
        decide
      have hlen2d : (s.data.drop 6).length = 2 := by
        rw [List.length_drop, hlen]
      have hd4 : ∀ c ∈ s.data.take 4, c.isDigit = true :=
        fun c hc => hall2 c (List.mem_of_mem_take hc)
      have hd2m : ∀ c ∈ (s.data.drop 4).take 2, c.isDigit = true :=
        fun c hc => hall2 c (List.mem_of_mem_drop (List.mem_of_mem_take hc))
      have hd2d : ∀ c ∈ s.data.drop 6, c.isDigit = true :=
        fun c hc => hall2 c (List.mem_of_mem_drop hc)
      refine ⟨digits_to_nat (s.data.take 4), digits_to_nat ((s.data.drop 4).take 2),
        digits_to_nat (s.data.drop 6), h1, ?_, h2, h3, h4, h5, ?_⟩
      · have := digits_to_nat_lt _ hd4
        rw [hlen4] at this
        norm_num at this
        omega
      · have e4 : pad_digits 4 (digits_to_nat (s.data.take 4)) = s.data.take 4 := by
          have := pad_digits_of_digits _ hd4
          rwa [hlen4] at this
        have e2m : pad_digits 2 (digits_to_nat ((s.data.drop 4).take 2)) =
            (s.data.drop 4).take 2 := by
          have := pad_digits_of_digits _ hd2m
          rwa [hlen2m] at this
        have e2d : pad_digits 2 (digits_to_nat (s.data.drop 6)) = s.data.drop 6 := by
          have := pad_digits_of_digits _ hd2d
          rwa [hlen2d] at this
        rw [e4, e2m, e2d]
        have hsplit : s.data.drop 4 = (s.data.drop 4).take 2 ++ (s.data.drop 4).drop 2 :=
          (List.take_append_drop 2 _).symm
        have hdd : (s.data.drop 4).drop 2 = s.data.drop 6 := List.drop_drop 2 4 s.data
        conv_lhs => rw [← List.take_append_drop 4 s.data, hsplit, hdd]
        rw [List.append_assoc]
  · rintro ⟨y, m, d, hy1, hy2, hm1, hm2, hd1, hd2, hs⟩
    have hlp4 : (pad_digits 4 y).length = 4 := pad_digits_length 4 y
    have hlp2m : (pad_digits 2 m).length = 2 := pad_digits_length 2 m
    have hlp2d : (pad_digits 2 d).length = 2 := pad_digits_length 2 d
    have hlen : s.data.length = 8 := by
      rw [hs, List.length_append, List.length_append, hlp4, hlp2m, hlp2d]
    have hall : s.data.all Char.isDigit = true := by
      rw [List.all_eq_true]
      intro c hc
      rw [hs] at hc
      rcases List.mem_append.mp hc with h | h
      · rcases List.mem_append.mp h with h2 | h2
        · exact pad_digits_all_digit 4 y c h2
        · exact pad_digits_all_digit 2 m c h2
      · exact pad_digits_all_digit 2 d c h
    have htake4 : s.data.take 4 = pad_digits 4 y := by
      rw [hs, List.append_assoc]
      exact List.take_left' hlp4
    have hdrop4 : s.data.drop 4 = pad_digits 2 m ++ pad_digits 2 d := by
      rw [hs, List.append_assoc]
      exact List.drop_left' hlp4
    have htake2m : (s.data.drop 4).take 2 = pad_digits 2 m := by
      rw [hdrop4]
      exact List.take_left' hlp2m
    have hdrop6 : s.data.drop 6 = pad_digits 2 d := by
      have h62 : s.data.drop 6 = (s.data.drop 4).drop 2 := (List.drop_drop 2 4 s.data).symm
      rw [h62, hdrop4]
      exact List.drop_left' hlp2m
    have hyv : digits_to_nat (s.data.take 4) = y := by
      rw [htake4, digits_to_nat_pad]
      exact Nat.mod_eq_of_lt (by norm_num; omega)
    have hmv : digits_to_nat ((s.data.drop 4).take 2) = m := by
      rw [htake2m, digits_to_nat_pad]
      exact Nat.mod_eq_of_lt (by norm_num; omega)
    have hdv : digits_to_nat (s.data.drop 6) = d := by
      rw [hdrop6, digits_to_nat_pad]
      have h31 := days_in_month_le y m
      exact Nat.mod_eq_of_lt (by norm_num; omega)
    rw [validate_date_ascii, if_neg (by push_neg; exact ⟨hlen, hall⟩)]
    rw [strptime_isSome_iff s hlen hall, hyv, hmv, hdv]
    exact ⟨hy1, hm1, hm2, hd1, hd2⟩

/-- Pointwise-equal Boolean predicates give equal `all` results. -/
theorem all_congr_aux {α : Type} {p q : α → Bool} :
    ∀ l : List α, (∀ a ∈ l, p a = q a) → l.all p = l.all q := by
  intro l
  induction l with
  | nil => intro h; rfl
  | cons a l ih =>
    intro h
    simp only [List.all_cons, h a (List.mem_cons_self a l),
      ih (fun x hx => h x (List.mem_cons_of_mem _ hx))]

/-- Boolean characterization of an ASCII digit character. -/
theorem isDigit_iff_bounds (c : Char) :
    c.isDigit = true ↔ (48 ≤ c.toNat ∧ c.toNat ≤ 57) := by
  simp [Char.isDigit]
  exact ⟨fun h => ⟨h.1, h.2⟩, fun h => ⟨h.1, h.2⟩⟩

/-- On ASCII characters the Unicode decimal-digit table is exactly the
ASCII digit test. -/
theorem py_decimal_digit_ascii {c : Char} (h : c.toNat < 128) :
    (py_decimal_digit c).isSome = c.isDigit := by
  rw [py_decimal_digit]
  by_cases h1 : 48 ≤ c.toNat ∧ c.toNat ≤ 57
  · rw [if_pos h1, (isDigit_iff_bounds c).mpr h1]
    rfl
  · rw [if_neg h1, if_neg (by omega)]
    rcases hd : c.isDigit with _ | _
    · rfl
    · exact absurd ((isDigit_iff_bounds c).mp hd) h1

/-- On ASCII digit lists the Unicode reader agrees with the ASCII
reader, accumulator included. -/
theorem py_digits_to_nat_ascii_aux (l : List Char) (h : ∀ c ∈ l, c.isDigit = true) :
    ∀ n : Nat,
      l.foldl (fun acc c =>
        match acc, py_decimal_digit c with
        | some m, some d => some (m * 10 + d)
        | _, _ => none) (some n) =
      some (l.foldl (fun m c => m * 10 + (c.toNat - 48)) n) := by
  induction l with
  | nil => intro n; rfl
  | cons c l ih =>
    intro n
    have hc := (isDigit_iff_bounds c).mp (h c (List.mem_cons_self c l))
    have hpy : py_decimal_digit c = some (c.toNat - 48) := by
      rw [py_decimal_digit, if_pos hc]
    simp only [List.foldl_cons, hpy]
    exact ih (fun x hx => h x (List.mem_cons_of_mem _ hx)) _

/-- On ASCII digit lists the Unicode reader computes the ASCII value. -/
theorem py_digits_to_nat_ascii (l : List Char) (h : ∀ c ∈ l, c.isDigit = true) :
    py_digits_to_nat l = some (digits_to_nat l) :=
  py_digits_to_nat_ascii_aux l h 0

/-- On 8-character ASCII-digit strings the Unicode-aware `strptime`
model agrees with the ASCII one. -/
theorem py_strptime_eq_ascii (s : String)
    (hlen : s.data.length = 8) (hdig : s.data.all Char.isDigit = true) :
    py_strptime_yyyymmdd s = strptime_yyyymmdd s := by
  have hall2 := List.all_eq_true.mp hdig
  have h4 := py_digits_to_nat_ascii (s.data.take 4)
    (fun c hc => hall2 c (List.mem_of_mem_take hc))
  have h2m := py_digits_to_nat_ascii ((s.data.drop 4).take 2)
    (fun c hc => hall2 c (List.mem_of_mem_drop (List.mem_of_mem_take hc)))
  have h2d := py_digits_to_nat_ascii (s.data.drop 6)
    (fun c hc => hall2 c (List.mem_of_mem_drop hc))
  simp only [py_strptime_yyyymmdd, h4, h2m, h2d, strptime_yyyymmdd]
  have hguard : s.data.length = 8 ∧ s.data.all Char.isDigit = true := ⟨hlen, hdig⟩
  rw [if_pos hguard]
  by_cases hv : 1 ≤ digits_to_nat (s.data.take 4) ∧
      1 ≤ digits_to_nat ((s.data.drop 4).take 2) ∧
      digits_to_nat ((s.data.drop 4).take 2) ≤ 12 ∧
      1 ≤ digits_to_nat (s.data.drop 6) ∧
      digits_to_nat (s.data.drop 6) ≤
        days_in_month (digits_to_nat (s.data.take 4))
          (digits_to_nat ((s.data.drop 4).take 2))
  · rw [if_pos (And.intro hlen hv), if_pos hv]
  · rw [if_neg (fun hx => hv hx.2), if_neg hv]

/-- On strings of ASCII characters the Unicode-aware validator agrees
with its ASCII fragment. -/
theorem validate_date_eq_ascii (s : String) (h : ∀ c ∈ s.data, c.toNat < 128) :
    validate_date s = validate_date_ascii s := by
  have hall : s.data.all (fun c => (py_decimal_digit c).isSome) =
      s.data.all Char.isDigit :=
    all_congr_aux s.data (fun c hc => py_decimal_digit_ascii (h c hc))
  rw [validate_date, validate_date_ascii, hall]
  by_cases hg : s.data.length ≠ 8 ∨ ¬ s.data.all Char.isDigit = true
  · rw [if_pos hg, if_pos hg]
  · rw [if_neg hg, if_neg hg]
    push_neg at hg
    rw [py_strptime_eq_ascii s hg.1 hg.2]

/-- A string satisfying the spec-side date predicate is made of ASCII
digits. -/
theorem spec_date_all_ascii_digits {s : String} (h : SpecRealCalendarDate s) :
    s.data.all Char.isDigit = true := by
  obtain ⟨y, m, d, _, _, _, _, _, _, hs⟩ := h
  rw [List.all_eq_true]
  intro c hc
  rw [hs] at hc
  rcases List.mem_append.mp hc with h1 | h1
  · rcases List.mem_append.mp h1 with h2 | h2
    · exact pad_digits_all_digit 4 y c h2
    · exact pad_digits_all_digit 2 m c h2
  · exact pad_digits_all_digit 2 d c h1

/-- C8 counterexample: the eight Unicode decimal digits ٢٠٢٣0615
(Arabic-Indic year, ASCII month and day) are accepted by the validator
— CPython's `isdigit`, `strptime` and `int()` read Unicode decimal
digits — although the string is not eight ASCII digits, refuting the
claimed iff. -/
theorem c8_counterexample :
    validate_date unicode_date = true ∧
    unicode_date.data.all Char.isDigit = false ∧
    ¬ SpecRealCalendarDate unicode_date :=
  ⟨by decide, by decide,
    fun h => absurd (spec_date_all_ascii_digits h) (by decide)⟩

/-- C8 amended: the validator accepts Unicode decimal digits, not only
ASCII ones, so the ASCII-digit characterization holds on ASCII input:
for every string of ASCII characters, `validate_date` returns true iff
the string is exactly eight ASCII digits rendering a real calendar
date in YYYYMMDD form (year 1–9999, month 1–12, day within the
Gregorian month length), and false on every other ASCII string; the
validator is a total function, so no exception escapes. -/
theorem c8_validate_date_amended (s : String) (h : ∀ c ∈ s.data, c.toNat < 128) :
    validate_date s = true ↔ SpecRealCalendarDate s := by
  rw [validate_date_eq_ascii s h]
  exact validate_date_ascii_iff s

/-- C8 witness: the amended characterization evaluated on the ASCII
date 20230615. -/
theorem c8_witness :
    validate_date "20230615" = true ↔ SpecRealCalendarDate "20230615" :=
  c8_validate_date_amended "20230615" (by decide)

/-- C9: extraction returns exactly the parsed rows whose `sale_date`
equals the YYYY-MM-DD form of the target date, with exact-duplicate
rows collapsed to one (the result is duplicate-free), and an extract
with no matching rows yields the empty sequence, not an error. -/
theorem c9_extract_filter (env : Env) (date : String) (rows : List SaleRecord)
    (f : String) (hobj : env.storeObject = some rows)
    (hf : format_date date = some f) :
    ∃ out, extract_data_from_minio date env = Except.ok out ∧
      (∀ r, r ∈ out ↔ r ∈ rows ∧ r.sale_date = f) ∧
      out.Nodup ∧
      ((∀ r ∈ rows, r.sale_date ≠ f) → out = []) := by
  refine ⟨drop_duplicates (rows.filter (fun r => r.sale_date = f)), ?_, ?_, ?_, ?_⟩
  · rw [extract_data_from_minio, hf, hobj]
  · intro r
    rw [mem_drop_duplicates, List.mem_filter]
    simp
  · exact nodup_drop_duplicates _
  · intro hnone
    have hfil : rows.filter (fun r => r.sale_date = f) = [] := by
      rw [List.filter_eq_nil_iff]
      intro a ha
      simp [hnone a ha]
    rw [hfil]
    rfl

/-- C9 witness: on a mixed-date object with a duplicated row, the
filter keeps exactly the 2023-06-15 rows and collapses the duplicate. -/
theorem c9_witness :
    ∃ out, extract_data_from_minio "20230615" (env_of (some mixed_rows)) = Except.ok out ∧
      (∀ r, r ∈ out ↔ r ∈ mixed_rows ∧ r.sale_date = "2023-06-15") ∧
      out.Nodup ∧
      ((∀ r ∈ mixed_rows, r.sale_date ≠ "2023-06-15") → out = []) :=
  c9_extract_filter (env_of (some mixed_rows)) "20230615" mixed_rows "2023-06-15"
    rfl (by decide)

end TestArtefact
